import Mathlib

/-!
Shallow embedding of the scenario scripts of the
professional-rocket-launch-simulation verification repository.

Each Python script is a straight-line Playwright program with try/except
blocks.  We model a run as a pair: the list of externally visible events it
performs (navigation, clicks, scripted evaluations, sleeps, screenshots,
browser close, log prints) together with a Boolean saying whether control
flow continues past that point (`false` means the run stopped there: an
early `return` or an uncaught exception propagating out).  An environment
record fixes, for each fallible operation of a script, whether it succeeds,
and the values that reads observe; the script definitions below translate
the Python control flow over that environment.
-/

namespace RocketVerify

/-- Externally visible events a scenario script can perform. -/
inductive Ev where
  | goto (ok : Bool)
  | waitTimeout (ms : Nat)
  | click (sel : String) (ok : Bool)
  | waitSel (sel : String) (ok : Bool)
  | waitHidden (sel : String) (ok : Bool)
  | evalJs (s : String) (ok : Bool)
  | evalJsClick (elemId : String) (ok : Bool)
  | liftoffRead (v : Option Bool)
  | readClass (elemId : String) (v : Option Bool)
  | readText (sel : String) (v : Option String)
  | readStyle (sel : String) (prop : String)
  | readOptions (opts : List String)
  | boundingBox (sel : String) (w : ℚ)
  | pressKey (k : String)
  | sleep (ms : Nat)
  | screenshot (path : String)
  | close
  | print (msg : String)
  deriving DecidableEq, Repr

/-- A run fragment: the events performed, and whether control continues
(`false` on an early return or an uncaught exception). -/
abbrev Tr := List Ev × Bool

/-- Sequencing of run fragments: the second fragment runs only if the first
one did not stop (models Python statement sequencing where an uncaught
exception or a return aborts the rest). -/
def andThen (a : Tr) (b : Tr) : Tr :=
  if a.2 then (a.1 ++ b.1, b.2) else a

/-- An always-continuing fragment consisting of the given events. -/
def emit (es : List Ev) : Tr := (es, true)

theorem andThen_continue (a b : Tr) (h : a.2 = true) :
    andThen a b = (a.1 ++ b.1, b.2) := by
  simp [andThen, h]

theorem andThen_stop (a b : Tr) (h : a.2 = false) :
    andThen a b = a := by
  simp [andThen, h]

theorem mem_andThen_left (e : Ev) (a b : Tr) (h : e ∈ a.1) :
    e ∈ (andThen a b).1 := by
  unfold andThen
  split <;> simp [h]

theorem mem_andThen_right (e : Ev) (a b : Tr) (ha : a.2 = true) (h : e ∈ b.1) :
    e ∈ (andThen a b).1 := by
  simp [andThen, ha, h]

theorem mem_andThen (e : Ev) (a b : Tr) (h : e ∈ (andThen a b).1) :
    e ∈ a.1 ∨ e ∈ b.1 := by
  unfold andThen at h
  split at h
  · simpa using h
  · exact Or.inl h

theorem countP_andThen (p : Ev → Bool) (a b : Tr) (ha : a.2 = true) :
    ((andThen a b).1).countP p = (a.1).countP p + (b.1).countP p := by
  simp [andThen, ha, List.countP_append]

theorem countP_andThen_stop (p : Ev → Bool) (a b : Tr) (ha : a.2 = false) :
    ((andThen a b).1).countP p = (a.1).countP p := by
  simp [andThen, ha]

/-! ## The liftoff poll of src/tests/verify_exhaust.py

The Python loop is

  for i in range(20):
      liftoff = page.evaluate("window.game.missionState.liftoff")
      if liftoff: print("Liftoff confirmed!"); break
      time.sleep(0.5)

The read at iteration i is modelled by `reads i : Option Bool`; `none`
means the evaluate call raised (there is no try/except around it, so the
exception propagates), `some v` means it returned the flag value v.
-/

/-- Outcome of the liftoff poll loop. -/
inductive PollResult where
  | raised (i : Nat)
  | resolvedAt (i : Nat)
  | exhausted
  deriving DecidableEq, Repr

/-- One pass of the poll loop from iteration i with the given fuel,
returning the event trace of the loop and its outcome. -/
def pollLoop (reads : Nat → Option Bool) : Nat → Nat → List Ev × PollResult
  | _, 0 => ([], .exhausted)
  | i, fuel + 1 =>
    match reads i with
    | none => ([.liftoffRead none], .raised i)
    | some true => ([.liftoffRead (some true), .print "Liftoff confirmed!"], .resolvedAt i)
    | some false =>
      let rest := pollLoop reads (i + 1) fuel
      (.liftoffRead (some false) :: .sleep 500 :: rest.1, rest.2)

/-- The poll outcome for the scripted loop (20 iterations, i.e. up to 10 s
at 0.5 s intervals). -/
def pollLiftoff (reads : Nat → Option Bool) : PollResult :=
  (pollLoop reads 0 20).2

/-- The event trace of the scripted poll loop. -/
def pollTrace (reads : Nat → Option Bool) : List Ev :=
  (pollLoop reads 0 20).1

/-- Recognizer for liftoff-flag evaluations in a trace. -/
def isLiftoffRead : Ev → Bool
  | .liftoffRead _ => true
  | _ => false

/-- Recognizer for sleep events in a trace. -/
def isSleep : Ev → Bool
  | .sleep _ => true
  | _ => false

/-- Number of liftoff-flag evaluations the poll performs. -/
def pollEvals (reads : Nat → Option Bool) : Nat :=
  (pollTrace reads).countP isLiftoffRead

/-- Number of 0.5 s sleeps the poll performs. -/
def pollSleeps (reads : Nat → Option Bool) : Nat :=
  (pollTrace reads).countP isSleep

theorem pollLoop_evals_le (reads : Nat → Option Bool) :
    ∀ fuel i, ((pollLoop reads i fuel).1).countP isLiftoffRead ≤ fuel := by
  intro fuel
  induction fuel with
  | zero => intro i; simp [pollLoop]
  | succ n ih =>
    intro i
    unfold pollLoop
    match h : reads i with
    | none => simp [h, isLiftoffRead, List.countP_cons]
    | some true => simp [h, isLiftoffRead, List.countP_cons]
    | some false =>
      simp only [h, List.countP_cons, isLiftoffRead]
      have := ih (i + 1)
      simp [isLiftoffRead] at this ⊢
      omega

theorem pollLoop_allFalse (reads : Nat → Option Bool) :
    ∀ fuel i, (∀ j, j < fuel → reads (i + j) = some false) →
      (pollLoop reads i fuel).2 = .exhausted ∧
      ((pollLoop reads i fuel).1).countP isLiftoffRead = fuel ∧
      ((pollLoop reads i fuel).1).countP isSleep = fuel ∧
      (∀ v, Ev.liftoffRead v ∈ (pollLoop reads i fuel).1 → v = some false) := by
  intro fuel
  induction fuel with
  | zero => intro i _; simp [pollLoop]
  | succ n ih =>
    intro i h
    have h0 : reads i = some false := by simpa using h 0 (Nat.succ_pos n)
    have hrest : ∀ j, j < n → reads (i + 1 + j) = some false := by
      intro j hj
      have := h (j + 1) (by omega)
      simpa [Nat.add_assoc, Nat.add_comm 1 j] using this
    obtain ⟨hres, hev, hsl, hmem⟩ := ih (i + 1) hrest
    refine ⟨?_, ?_, ?_, ?_⟩
    · simp [pollLoop, h0, hres]
    · simp [pollLoop, h0, List.countP_cons, isLiftoffRead, isSleep] at hev ⊢
      omega
    · simp [pollLoop, h0, List.countP_cons, isLiftoffRead, isSleep] at hsl ⊢
      omega
    · intro v hv
      simp only [pollLoop, h0, List.mem_cons] at hv
      rcases hv with hv | hv | hv
      · exact (Ev.liftoffRead.injEq _ _).mp hv
      · exact absurd hv (by simp)
      · exact hmem v hv

theorem pollLoop_resolved (reads : Nat → Option Bool) :
    ∀ fuel i k, k < fuel → (∀ j, j < k → reads (i + j) = some false) →
      reads (i + k) = some true →
      (pollLoop reads i fuel).2 = .resolvedAt (i + k) ∧
      ((pollLoop reads i fuel).1).countP isLiftoffRead = k + 1 ∧
      ((pollLoop reads i fuel).1).countP isSleep = k := by
  intro fuel
  induction fuel with
  | zero => intro i k hk; omega
  | succ n ih =>
    intro i k hk hfalse htrue
    match k with
    | 0 =>
      have h0 : reads i = some true := by simpa using htrue
      simp [pollLoop, h0, List.countP_cons, isLiftoffRead, isSleep]
    | k + 1 =>
      have h0 : reads i = some false := by simpa using hfalse 0 (Nat.succ_pos k)
      have hfalse2 : ∀ j, j < k → reads (i + 1 + j) = some false := by
        intro j hj
        have := hfalse (j + 1) (by omega)
        simpa [Nat.add_assoc, Nat.add_comm 1 j] using this
      have htrue2 : reads (i + 1 + k) = some true := by
        have : i + 1 + k = i + (k + 1) := by omega
        rw [this]; exact htrue
      obtain ⟨hres, hev, hsl⟩ := ih (i + 1) k (by omega) hfalse2 htrue2
      have hidx : i + 1 + k = i + (k + 1) := by omega
      refine ⟨?_, ?_, ?_⟩
      · simp only [pollLoop, h0] at hres ⊢
        rw [hidx] at hres
        exact hres
      · simp [pollLoop, h0, List.countP_cons, isLiftoffRead, isSleep] at hev ⊢
        omega
      · simp [pollLoop, h0, List.countP_cons, isLiftoffRead, isSleep] at hsl ⊢
        omega

theorem pollLoop_raised (reads : Nat → Option Bool) :
    ∀ fuel i k, k < fuel → (∀ j, j < k → reads (i + j) = some false) →
      reads (i + k) = none →
      (pollLoop reads i fuel).2 = .raised (i + k) ∧
      ((pollLoop reads i fuel).1).countP isLiftoffRead = k + 1 := by
  intro fuel
  induction fuel with
  | zero => intro i k hk; omega
  | succ n ih =>
    intro i k hk hfalse hnone
    match k with
    | 0 =>
      have h0 : reads i = none := by simpa using hnone
      simp [pollLoop, h0, List.countP_cons, isLiftoffRead]
    | k + 1 =>
      have h0 : reads i = some false := by simpa using hfalse 0 (Nat.succ_pos k)
      have hfalse2 : ∀ j, j < k → reads (i + 1 + j) = some false := by
        intro j hj
        have := hfalse (j + 1) (by omega)
        simpa [Nat.add_assoc, Nat.add_comm 1 j] using this
      have hnone2 : reads (i + 1 + k) = none := by
        have : i + 1 + k = i + (k + 1) := by omega
        rw [this]; exact hnone
      obtain ⟨hres, hev⟩ := ih (i + 1) k (by omega) hfalse2 hnone2
      have hidx : i + 1 + k = i + (k + 1) := by omega
      refine ⟨?_, ?_⟩
      · simp only [pollLoop, h0] at hres ⊢
        rw [hidx] at hres
        exact hres
      · simp [pollLoop, h0, List.countP_cons, isLiftoffRead, isSleep] at hev ⊢
        omega

theorem pollLoop_not_raised (reads : Nat → Option Bool) :
    ∀ fuel i, (∀ j, j < fuel → reads (i + j) ≠ none) →
      ∀ k, (pollLoop reads i fuel).2 ≠ .raised k := by
  intro fuel
  induction fuel with
  | zero => intro i _ k; simp [pollLoop]
  | succ n ih =>
    intro i h k
    have h0 : reads i ≠ none := by simpa using h 0 (Nat.succ_pos n)
    unfold pollLoop
    match hr : reads i with
    | none => exact absurd hr h0
    | some true => simp
    | some false =>
      have hrest : ∀ j, j < n → reads (i + 1 + j) ≠ none := by
        intro j hj
        have := h (j + 1) (by omega)
        simpa [Nat.add_assoc, Nat.add_comm 1 j] using this
      simpa using ih (i + 1) hrest k

theorem pollLoop_only_reads_sleeps (reads : Nat → Option Bool) :
    ∀ fuel i e, e ∈ (pollLoop reads i fuel).1 →
      (∃ v, e = .liftoffRead v) ∨ e = .sleep 500 ∨ e = .print "Liftoff confirmed!" := by
  intro fuel
  induction fuel with
  | zero => intro i e he; simp [pollLoop] at he
  | succ n ih =>
    intro i e he
    unfold pollLoop at he
    match hr : reads i with
    | none => simp [hr] at he; exact Or.inl ⟨none, he⟩
    | some true =>
      simp [hr] at he
      rcases he with he | he
      · exact Or.inl ⟨some true, he⟩
      · exact Or.inr (Or.inr he)
    | some false =>
      simp [hr] at he
      rcases he with he | he | he
      · exact Or.inl ⟨some false, he⟩
      · exact Or.inr (Or.inl he)
      · exact ih (i + 1) e he

/-! ## Trace statistics -/

/-- Recognizer for browser-close events. -/
def isClose : Ev → Bool
  | .close => true
  | _ => false

/-- Recognizer for screenshot events. -/
def isShot : Ev → Bool
  | .screenshot _ => true
  | _ => false

/-- Recognizer for click events (any selector, any outcome). -/
def isClick : Ev → Bool
  | .click _ _ => true
  | _ => false

/-- Recognizer for JS-click fallback events on a given element id. -/
def isJsClickOn (elemId : String) : Ev → Bool
  | .evalJsClick e _ => e == elemId
  | _ => false

/-- Number of browser-close events performed by a run. -/
def closes (t : Tr) : Nat := t.1.countP isClose

/-- Number of screenshots performed by a run. -/
def shots (t : Tr) : Nat := t.1.countP isShot

theorem pollTrace_no_close_shot (reads : Nat → Option Bool) :
    ∀ fuel i, ((pollLoop reads i fuel).1).countP isClose = 0 ∧
      ((pollLoop reads i fuel).1).countP isShot = 0 ∧
      ((pollLoop reads i fuel).1).countP isClick = 0 := by
  intro fuel i
  refine ⟨?_, ?_, ?_⟩ <;>
  · rw [List.countP_eq_zero]
    intro e he
    rcases pollLoop_only_reads_sleeps reads fuel i e he with ⟨v, rfl⟩ | rfl | rfl <;>
      simp [isClose, isShot, isClick]

/-! ## src/tests/verify_exhaust.py

    def run():
        with sync_playwright() as p:
            browser = p.chromium.launch(headless=True); page = browser.new_page()
            page.set_viewport_size(1280 x 720)
            try: page.goto("http://localhost:8080")
            except Exception: print(...); return          # early return, no close
            page.wait_for_timeout(2000)
            try: page.click("#start-btn", timeout=5000)
            except Exception: print(...)                  # caught, continue
            page.wait_for_timeout(1000)
            try: page.click("#tooltip-dismiss", timeout=5000)
            except Exception: print(...)                  # caught, continue
            page.evaluate("window.game.launch()")         # uncaught on raise
            page.evaluate("window.game.setThrottle(1.0)") # uncaught on raise
            for i in range(20): ... liftoff poll ...      # uncaught on raise
            page.wait_for_timeout(5000)
            page.evaluate("window.game.timeScale = 10.0") # uncaught on raise
            page.wait_for_timeout(2000)
            page.screenshot(path="exhaust_v3.png")
            browser.close()
-/

/-- Environment of a verify_exhaust run: which fallible operations succeed
and what the liftoff-flag reads observe. -/
structure ExhaustEnv where
  gotoOk : Bool
  clickStartOk : Bool
  clickGotItOk : Bool
  launchOk : Bool
  throttleOk : Bool
  liftoffReads : Nat → Option Bool
  warpOk : Bool

/-- Navigation with the failure caught and turned into an early return
(the trace stops but no exception escapes): verify_exhaust style. -/
def gotoCaught (ok : Bool) : Tr :=
  if ok then ([.goto true], true)
  else ([.goto false, .print "Navigation failed"], false)

/-- Navigation with no surrounding try: a failure is an uncaught raise. -/
def gotoRaw (ok : Bool) : Tr := ([.goto ok], ok)

/-- A click wrapped in try/except: the run continues either way. -/
def clickCaught (sel : String) (ok : Bool) : Tr := ([.click sel ok], true)

/-- A bare page.evaluate command: a failure is an uncaught raise. -/
def evalCmd (s : String) (ok : Bool) : Tr := ([.evalJs s ok], ok)

/-- The liftoff poll as a run fragment: it stops the run only when a
flag read raised. -/
def pollTr (reads : Nat → Option Bool) : Tr :=
  (pollTrace reads,
    match pollLiftoff reads with
    | .raised _ => false
    | _ => true)

/-- The whole verify_exhaust run over an environment. -/
def verifyExhaust (env : ExhaustEnv) : Tr :=
  andThen (gotoCaught env.gotoOk)
  (andThen (emit [.waitTimeout 2000])
  (andThen (clickCaught "#start-btn" env.clickStartOk)
  (andThen (emit [.waitTimeout 1000])
  (andThen (clickCaught "#tooltip-dismiss" env.clickGotItOk)
  (andThen (evalCmd "window.game.launch()" env.launchOk)
  (andThen (evalCmd "window.game.setThrottle(1.0)" env.throttleOk)
  (andThen (pollTr env.liftoffReads)
  (andThen (emit [.waitTimeout 5000])
  (andThen (evalCmd "window.game.timeScale = 10.0" env.warpOk)
  (andThen (emit [.waitTimeout 2000])
    (emit [.screenshot "exhaust_v3.png", .close])))))))))))

/-! ## src/verify_hud.py

    def test_hud(page):
        page.goto("http://localhost:8080")                  # uncaught on raise
        try:
            start_btn = page.wait_for_selector("#start-btn", timeout=2000)
            if start_btn: start_btn.click(); time.sleep(2)
        except Exception: print("Start button not found or error")
        page.wait_for_selector("#hud-wind-speed")           # uncaught on raise
        content = page.locator("#hud-wind-speed").text_content()
        if not content or content == "0 m/s": print(diagnostic)
        color = wind_speed.evaluate(getComputedStyle color)
        page.screenshot(path="verification_hud_ingame.png")

    __main__:
        browser = p.chromium.launch(); page = browser.new_page()
        try: test_hud(page)
        except Exception as e: print(f"Error: ...")
        finally: browser.close()
-/

/-- Environment of a verify_hud run. -/
structure HudEnv where
  gotoOk : Bool
  startFound : Bool
  clickStartOk : Bool
  hudSelOk : Bool
  windText : Option String

/-- The try/except block around locating and clicking the start button:
every failure inside it is caught and the run continues. -/
def hudStartStep (env : HudEnv) : Tr :=
  if env.startFound then
    if env.clickStartOk then
      ([.waitSel "#start-btn" true, .click "#start-btn" true, .sleep 2000], true)
    else
      ([.waitSel "#start-btn" true, .click "#start-btn" false,
        .print "Start button not found or error"], true)
  else
    ([.waitSel "#start-btn" false, .print "Start button not found or error"], true)

/-- A bare wait_for_selector: a timeout is an uncaught raise. -/
def waitSelRaw (sel : String) (ok : Bool) : Tr := ([.waitSel sel ok], ok)

/-- The wind-speed text check: it only ever logs a diagnostic, for any
observed text content, and always continues. -/
def windCheck (v : Option String) : Tr :=
  (.readText "#hud-wind-speed" v ::
    (if v = none ∨ v = some "" ∨ v = some "0 m/s" then
      [.print "Wind speed content is 0 or empty, simulation might be paused or wind is 0."]
    else []), true)

/-- The body of test_hud. -/
def testHud (env : HudEnv) : Tr :=
  andThen (gotoRaw env.gotoOk)
  (andThen (hudStartStep env)
  (andThen (waitSelRaw "#hud-wind-speed" env.hudSelOk)
  (andThen (windCheck env.windText)
    (emit [.readStyle "#hud-wind-speed" "color",
           .screenshot "verification_hud_ingame.png"]))))

/-- The __main__ wrapper of verify_hud: test_hud under try/except with a
finally that closes the browser on every path. -/
def hudMain (env : HudEnv) : Tr :=
  let t := testHud env
  (t.1 ++ (if t.2 then [] else [.print "Error"]) ++ [.close], true)

/-! ## src/verification/verify_maneuver_planner.py

    page.goto("http://localhost:8080")               # uncaught on raise
    try:
        start_btn.wait_for(state="visible", timeout=5000); start_btn.click()
    except Exception:
        print(...); page.screenshot(path="verification/debug_start.png")
    page.wait_for_timeout(2000)
    page.keyboard.press("o")
    try:
        modal.wait_for(state="visible", timeout=3000); print("appeared")
        if content_div.count() > 0:
            box = content_div.bounding_box()
            if box:
                if box width <= 500: print("Width is within limit.")
                else: print("exceeds 500px limit")
        else: print("NOT found")
    except Exception: print("did not appear")
    page.screenshot(path="verification/maneuver_planner.png")
    browser.close()
-/

/-- Environment of a verify_maneuver_planner run.  `box` is the
bounding-box width of the content element (`none` when bounding_box()
returned None); widths are modelled as rationals. -/
structure ManeuverEnv where
  gotoOk : Bool
  startVisOk : Bool
  clickStartOk : Bool
  modalVisOk : Bool
  contentCount : Nat
  box : Option ℚ

/-- The start-button block of verify_maneuver_planner: any failure inside
the try is caught, logged and followed by a debug screenshot. -/
def maneuverStartStep (env : ManeuverEnv) : Tr :=
  if env.startVisOk then
    if env.clickStartOk then
      ([.waitSel "#start-btn" true, .click "#start-btn" true,
        .print "Clicked start button."], true)
    else
      ([.waitSel "#start-btn" true, .click "#start-btn" false,
        .print "Could not click start button",
        .screenshot "verification/debug_start.png"], true)
  else
    ([.waitSel "#start-btn" false, .print "Could not click start button",
      .screenshot "verification/debug_start.png"], true)

/-- The modal block of verify_maneuver_planner: the visibility wait and the
width check, all failures caught. -/
def maneuverModalStep (env : ManeuverEnv) : Tr :=
  if env.modalVisOk then
    (.waitSel "#maneuver-planner-modal" true ::
     .print "Maneuver Planner Modal appeared." ::
      (if env.contentCount > 0 then
        .print "Found element with class .maneuver-planner-content" ::
          (match env.box with
           | none => []
           | some w =>
             .boundingBox ".maneuver-planner-content" w ::
               (if w ≤ 500 then [.print "Width is within limit."]
                else [.print "Width exceeds 500px limit!"]))
      else [.print "Element with class .maneuver-planner-content NOT found!"]), true)
  else
    ([.waitSel "#maneuver-planner-modal" false,
      .print "Maneuver Planner Modal did not appear"], true)

/-- The whole verify_maneuver_planner run over an environment. -/
def verifyManeuverPlanner (env : ManeuverEnv) : Tr :=
  andThen (gotoRaw env.gotoOk)
  (andThen (maneuverStartStep env)
  (andThen (emit [.waitTimeout 2000, .pressKey "o"])
  (andThen (maneuverModalStep env)
    (emit [.screenshot "verification/maneuver_planner.png", .close]))))

/-- The pass signal of the maneuver-planner scenario: the run printed the
width-within-limit confirmation. -/
def maneuverPassed (env : ManeuverEnv) : Prop :=
  Ev.print "Width is within limit." ∈ (verifyManeuverPlanner env).1

instance (env : ManeuverEnv) : Decidable (maneuverPassed env) := by
  unfold maneuverPassed; infer_instance

/-! ## src/verification/verify_mission_control.py

    page.goto("http://localhost:8080")                      # uncaught on raise
    splash.wait_for(state="visible", timeout=10000)         # uncaught on raise
    page.wait_for_timeout(3000)
    try: page.click("#start-btn", timeout=2000)
    except: page.evaluate(JS click on start-btn)            # fallback; its raise is uncaught
    splash.wait_for(state="hidden", timeout=10000)          # uncaught on raise
    page.wait_for_timeout(1000)
    is_visible = page.evaluate(classList.contains visible)  # uncaught on raise
    if is_visible:
        try: page.click("#tooltip-dismiss", timeout=2000)
        except: page.evaluate(JS click on tooltip-dismiss)
        page.wait_for_timeout(500)
        page.evaluate(remove visible class)                 # uncaught on raise
    mc_btn.wait_for(state="visible", timeout=5000)          # uncaught on raise
    try: mc_btn.click(timeout=2000)
    except: page.evaluate(JS click on mission-control-btn)
    page.wait_for_timeout(2000)
    page.screenshot(path="verification/mission_control.png")
    browser.close()
-/

/-- Environment of a verify_mission_control run.  `onboarding` is the value
of the classList.contains read (`none` when that evaluate raised). -/
structure MissionCtlEnv where
  gotoOk : Bool
  splashVisOk : Bool
  clickStartOk : Bool
  evalStartOk : Bool
  splashHideOk : Bool
  onboarding : Option Bool
  clickDismissOk : Bool
  evalDismissOk : Bool
  evalRemoveOk : Bool
  mcVisOk : Bool
  clickMcOk : Bool
  evalMcOk : Bool

/-- A click under try with a bare except whose handler performs a JS click
via the scripted evaluation channel; an exception of the fallback itself is
uncaught. -/
def clickWithJsFallback (sel elemId : String) (clickOk evalOk : Bool) : Tr :=
  if clickOk then ([.click sel true], true)
  else ([.click sel false, .evalJsClick elemId evalOk], evalOk)

/-- A bare locator.wait_for(state="hidden"): a timeout is an uncaught raise. -/
def waitHiddenRaw (sel : String) (ok : Bool) : Tr := ([.waitHidden sel ok], ok)

/-- The onboarding-overlay block of verify_mission_control. -/
def onboardingStep (env : MissionCtlEnv) : Tr :=
  match env.onboarding with
  | none => ([.readClass "tooltip-overlay" none], false)
  | some false => ([.readClass "tooltip-overlay" (some false)], true)
  | some true =>
    andThen (emit [.readClass "tooltip-overlay" (some true)])
    (andThen (clickWithJsFallback "#tooltip-dismiss" "tooltip-dismiss"
                env.clickDismissOk env.evalDismissOk)
    (andThen (emit [.waitTimeout 500])
      (evalCmd "remove visible class from tooltip-overlay" env.evalRemoveOk)))

/-- The part of the verify_mission_control run after the start-button
click block. -/
def mcAfterStart (env : MissionCtlEnv) : Tr :=
  andThen (waitHiddenRaw "#splash-screen" env.splashHideOk)
  (andThen (emit [.waitTimeout 1000])
  (andThen (onboardingStep env)
  (andThen (waitSelRaw "#mission-control-btn" env.mcVisOk)
  (andThen (clickWithJsFallback "#mission-control-btn" "mission-control-btn"
              env.clickMcOk env.evalMcOk)
  (andThen (emit [.waitTimeout 2000])
    (emit [.screenshot "verification/mission_control.png", .close]))))))

/-- The whole verify_mission_control run over an environment. -/
def verifyMissionControl (env : MissionCtlEnv) : Tr :=
  andThen (gotoRaw env.gotoOk)
  (andThen (waitSelRaw "#splash-screen" env.splashVisOk)
  (andThen (emit [.waitTimeout 3000])
  (andThen (clickWithJsFallback "#start-btn" "start-btn"
              env.clickStartOk env.evalStartOk)
    (mcAfterStart env))))

/-! ## src/verification/verify_script_editor.py

    def run(playwright):
        browser = ...; page = ...
        try:
            page.goto("http://localhost:8080")                # caught by outer
            start_btn.wait_for(state="visible")               # caught by outer
            start_btn.click()                                 # caught by outer
            try: splash.wait_for(state="hidden", timeout=5000); print("Splash hidden.")
            except: print(...); page.screenshot("verification/splash_stuck.png")
            page.keyboard.press("F")
            try:
                modal.wait_for(state="visible", timeout=2000); print("Modal visible.")
                options = page.evaluate(read preset options)
                page.screenshot(path="verification/script_editor.png")
            except Exception: print(...); page.screenshot("verification/no_modal.png")
        except Exception as e: print(f"Error: ...")
        finally: browser.close()
-/

/-- Environment of a verify_script_editor run. -/
structure ScriptEditorEnv where
  gotoOk : Bool
  startVisOk : Bool
  clickStartOk : Bool
  splashHideOk : Bool
  modalVisOk : Bool
  options : List String

/-- The splash-hidden block of verify_script_editor: failures caught,
debug screenshot taken. -/
def editorSplashStep (ok : Bool) : Tr :=
  if ok then ([.waitHidden "#splash-screen" true, .print "Splash hidden."], true)
  else ([.waitHidden "#splash-screen" false, .print "Splash did NOT hide.",
         .screenshot "verification/splash_stuck.png"], true)

/-- The modal block of verify_script_editor: on success reads the preset
options and screenshots; on failure logs and takes a fallback screenshot. -/
def editorModalStep (env : ScriptEditorEnv) : Tr :=
  if env.modalVisOk then
    ([.waitSel "#script-editor-modal" true, .print "Modal visible.",
      .readOptions env.options, .screenshot "verification/script_editor.png"], true)
  else
    ([.waitSel "#script-editor-modal" false, .print "Modal not found",
      .screenshot "verification/no_modal.png"], true)

/-- The body of the outer try of verify_script_editor. -/
def editorBody (env : ScriptEditorEnv) : Tr :=
  andThen (gotoRaw env.gotoOk)
  (andThen (waitSelRaw "#start-btn" env.startVisOk)
  (andThen (emit [.print "Clicking Start Button..."])
  (andThen (if env.clickStartOk then ([.click "#start-btn" true], true)
            else ([.click "#start-btn" false], false))
  (andThen (editorSplashStep env.splashHideOk)
  (andThen (emit [.pressKey "F"])
    (editorModalStep env))))))

/-- The whole verify_script_editor run: outer try/except plus the finally
that closes the browser on every path. -/
def scriptEditorRun (env : ScriptEditorEnv) : Tr :=
  let t := editorBody env
  (t.1 ++ (if t.2 then [] else [.print "Error"]) ++ [.close], true)

/-! ## Claim theorems for the condition poll (C3, C4, C5) -/

/-- C3: the liftoff poll evaluates the flag at most 20 times (0.5 s
intervals over a 10 s budget) and always terminates; when every read in
the window is false it ends in the exhausted (timed-out) state having
slept exactly 10 s, which is within timeout plus one interval, with every
observed value false (and at least one false observation recorded); and it
resolves at the first true read. -/
theorem liftoff_poll_bounded_and_times_out (reads : Nat → Option Bool) :
    pollEvals reads ≤ 20
    ∧ ((∀ i, i < 20 → reads i = some false) →
        pollLiftoff reads = .exhausted
        ∧ pollEvals reads = 20
        ∧ 500 * pollSleeps reads = 10000
        ∧ 500 * pollSleeps reads ≤ 10000 + 500
        ∧ (∀ v, Ev.liftoffRead v ∈ pollTrace reads → v = some false)
        ∧ Ev.liftoffRead (some false) ∈ pollTrace reads)
    ∧ (∀ i, i < 20 → (∀ j, j < i → reads j = some false) → reads i = some true →
        pollLiftoff reads = .resolvedAt i) := by
  refine ⟨?_, ?_, ?_⟩
  · simpa [pollEvals, pollTrace] using pollLoop_evals_le reads 20 0
  · intro h
    have h' : ∀ j, j < 20 → reads (0 + j) = some false := by
      intro j hj; simpa using h j hj
    obtain ⟨hres, hev, hsl, hmem⟩ := pollLoop_allFalse reads 20 0 h'
    have hev' : pollEvals reads = 20 := by simpa [pollEvals, pollTrace] using hev
    have hsl' : pollSleeps reads = 20 := by simpa [pollSleeps, pollTrace] using hsl
    have hmem' : ∀ v, Ev.liftoffRead v ∈ pollTrace reads → v = some false := by
      intro v hv; exact hmem v (by simpa [pollTrace] using hv)
    refine ⟨by simpa [pollLiftoff] using hres, hev', by omega, by omega, hmem', ?_⟩
    have hpos : 0 < (pollTrace reads).countP isLiftoffRead := by
      rw [show (pollTrace reads).countP isLiftoffRead = pollEvals reads from rfl, hev']
      omega
    obtain ⟨e, hein, hpe⟩ := List.countP_pos_iff.mp hpos
    have : ∃ v, e = Ev.liftoffRead v := by
      cases e <;> simp [isLiftoffRead] at hpe
      exact ⟨_, rfl⟩
    obtain ⟨v, rfl⟩ := this
    have := hmem' v hein
    rwa [this] at hein
  · intro i hi hprev htrue
    have hprev' : ∀ j, j < i → reads (0 + j) = some false := by
      intro j hj; simpa using hprev j hj
    have := pollLoop_resolved reads 20 0 i hi hprev' (by simpa using htrue)
    simpa [pollLiftoff] using this.1

/-- Witness for C3 at concrete inputs: the always-false predicate exhausts
the window with 20 evaluations, and a predicate true at read 3 resolves
there. -/
theorem liftoff_poll_bounded_and_times_out_witness :
    pollLiftoff (fun _ => some false) = .exhausted
    ∧ pollEvals (fun _ => some false) = 20
    ∧ pollLiftoff (fun i => some (decide (i = 3))) = .resolvedAt 3 := by
  have h1 := (liftoff_poll_bounded_and_times_out (fun _ => some false)).2.1
    (by intro i _; rfl)
  have h2 := (liftoff_poll_bounded_and_times_out (fun i => some (decide (i = 3)))).2.2
    3 (by omega) (by intro j hj; simp; omega) (by simp)
  exact ⟨h1.1, h1.2.1, h2⟩

/-- C4: a predicate already true at the first evaluation resolves after
that single evaluation with no sleep at all. -/
theorem liftoff_poll_immediate_resolve (reads : Nat → Option Bool)
    (h : reads 0 = some true) :
    pollLiftoff reads = .resolvedAt 0
    ∧ pollEvals reads = 1
    ∧ pollSleeps reads = 0 := by
  have := pollLoop_resolved reads 20 0 0 (by omega)
    (by intro j hj; omega) (by simpa using h)
  exact ⟨by simpa [pollLiftoff] using this.1,
    by simpa [pollEvals, pollTrace] using this.2.1,
    by simpa [pollSleeps, pollTrace] using this.2.2⟩

/-- Witness for C4: the constant-true predicate resolves at once. -/
theorem liftoff_poll_immediate_resolve_witness :
    pollLiftoff (fun _ => some true) = .resolvedAt 0
    ∧ pollEvals (fun _ => some true) = 1
    ∧ pollSleeps (fun _ => some true) = 0 :=
  liftoff_poll_immediate_resolve (fun _ => some true) rfl

/-- Reads used as the C5 counterexample: the flag evaluate raises at the
very first poll iteration and would be false afterwards. -/
def raisingReads : Nat → Option Bool :=
  fun i => if i = 0 then none else some false

/-- C5 counterexample: the claim says a predicate exception raised before
the deadline is treated as not-yet-true and polling continues until the
deadline.  On the code, a raise at the first evaluation (19 intervals
before the deadline) ends the poll immediately: one single evaluation is
performed, not the 20 the claim would require, and the loop outcome is the
propagating exception. -/
theorem predicate_exception_counterexample :
    pollLiftoff raisingReads = .raised 0
    ∧ pollEvals raisingReads = 1
    ∧ ¬ pollEvals raisingReads = 20 := by
  refine ⟨by decide, by decide, by decide⟩

/-- C5 amended: a predicate exception at any evaluation propagates
immediately: the poll ends at that iteration in the raised state (the
exception is uncaught, so the run fragment stops), with no further
evaluations and no retry until the deadline; there is no distinct
PredicateError outcome in the code, only the propagating exception. -/
theorem predicate_exception_propagates (reads : Nat → Option Bool) (i : Nat)
    (hi : i < 20) (hprev : ∀ j, j < i → reads j = some false)
    (hraise : reads i = none) :
    pollLiftoff reads = .raised i
    ∧ pollEvals reads = i + 1
    ∧ (pollTr reads).2 = false := by
  have hprev' : ∀ j, j < i → reads (0 + j) = some false := by
    intro j hj; simpa using hprev j hj
  have := pollLoop_raised reads 20 0 i hi hprev' (by simpa using hraise)
  have hres : pollLiftoff reads = .raised i := by simpa [pollLiftoff] using this.1
  refine ⟨hres, by simpa [pollEvals, pollTrace] using this.2, ?_⟩
  simp [pollTr, hres]

/-- Witness for the amended C5 at the concrete raising reads: the raise at
iteration 0 stops the poll after one evaluation. -/
theorem predicate_exception_propagates_witness :
    pollLiftoff raisingReads = .raised 0
    ∧ pollEvals raisingReads = 1
    ∧ (pollTr raisingReads).2 = false :=
  predicate_exception_propagates raisingReads 0 (by omega)
    (by intro j hj; omega) (by decide)

/-! ## Helper lemmas for the script-level claims -/

/-- Recognizer for JS-click fallback events (any element). -/
def isJsClick : Ev → Bool
  | .evalJsClick _ _ => true
  | _ => false

theorem countP_andThen_le (p : Ev → Bool) (a b : Tr) :
    ((andThen a b).1).countP p ≤ (a.1).countP p + (b.1).countP p := by
  unfold andThen
  split
  · simp [List.countP_append]
  · simp

theorem pollTrace_isClose (reads : Nat → Option Bool) :
    (pollTrace reads).countP isClose = 0 :=
  (pollTrace_no_close_shot reads 20 0).1

theorem pollTrace_isShot (reads : Nat → Option Bool) :
    (pollTrace reads).countP isShot = 0 :=
  (pollTrace_no_close_shot reads 20 0).2.1

theorem pollTr_continue (reads : Nat → Option Bool)
    (h : ∀ i, i < 20 → reads i ≠ none) : (pollTr reads).2 = true := by
  have hnr := pollLoop_not_raised reads 20 0 (by intro j hj; simpa using h j hj)
  unfold pollTr
  match hres : pollLiftoff reads with
  | .raised i => exact absurd hres (hnr i)
  | .resolvedAt i => simp [hres]
  | .exhausted => simp [hres]

theorem pollTr_fst (reads : Nat → Option Bool) :
    (pollTr reads).1 = pollTrace reads := rfl

/-- The trace and continue flag of a verify_exhaust run on which every
operation outside the poll succeeded and the poll did not raise. -/
theorem verifyExhaust_success_trace (env : ExhaustEnv)
    (h1 : env.gotoOk = true) (h2 : env.launchOk = true) (h3 : env.throttleOk = true)
    (h4 : env.warpOk = true) (h5 : (pollTr env.liftoffReads).2 = true) :
    (verifyExhaust env).1 =
      [.goto true, .waitTimeout 2000, .click "#start-btn" env.clickStartOk,
       .waitTimeout 1000, .click "#tooltip-dismiss" env.clickGotItOk,
       .evalJs "window.game.launch()" true, .evalJs "window.game.setThrottle(1.0)" true]
      ++ pollTrace env.liftoffReads
      ++ [.waitTimeout 5000, .evalJs "window.game.timeScale = 10.0" true,
          .waitTimeout 2000, .screenshot "exhaust_v3.png", .close]
    ∧ (verifyExhaust env).2 = true := by
  constructor <;>
    simp [verifyExhaust, andThen, gotoCaught, clickCaught, evalCmd, emit,
      h1, h2, h3, h4, h5, pollTr_fst]

/-- Shape of the events a testHud run can perform. -/
theorem testHud_events (env : HudEnv) (e : Ev) (he : e ∈ (testHud env).1) :
    (∃ b, e = .goto b) ∨ (∃ s b, e = .waitSel s b) ∨ (∃ s b, e = .click s b)
    ∨ e = .sleep 2000 ∨ (∃ m, e = .print m)
    ∨ (∃ v, e = .readText "#hud-wind-speed" v)
    ∨ e = .readStyle "#hud-wind-speed" "color"
    ∨ e = .screenshot "verification_hud_ingame.png" := by
  unfold testHud at he
  rcases mem_andThen _ _ _ he with h | h
  · simp [gotoRaw] at h
    exact Or.inl ⟨_, h⟩
  rcases mem_andThen _ _ _ h with h | h
  · unfold hudStartStep at h
    split at h
    · split at h <;> simp at h <;>
        rcases h with h | h | h <;>
        first
          | exact Or.inr (Or.inl ⟨_, _, h⟩)
          | exact Or.inr (Or.inr (Or.inl ⟨_, _, h⟩))
          | exact Or.inr (Or.inr (Or.inr (Or.inl h)))
          | exact Or.inr (Or.inr (Or.inr (Or.inr (Or.inl ⟨_, h⟩))))
    · simp at h
      rcases h with h | h
      · exact Or.inr (Or.inl ⟨_, _, h⟩)
      · exact Or.inr (Or.inr (Or.inr (Or.inr (Or.inl ⟨_, h⟩))))
  rcases mem_andThen _ _ _ h with h | h
  · simp [waitSelRaw] at h
    exact Or.inr (Or.inl ⟨_, _, h⟩)
  rcases mem_andThen _ _ _ h with h | h
  · unfold windCheck at h
    simp only [List.mem_cons] at h
    rcases h with h | h
    · exact Or.inr (Or.inr (Or.inr (Or.inr (Or.inr (Or.inl ⟨_, h⟩)))))
    · split at h <;> simp at h
      exact Or.inr (Or.inr (Or.inr (Or.inr (Or.inl ⟨_, h⟩))))
  · simp [emit] at h
    rcases h with h | h
    · exact Or.inr (Or.inr (Or.inr (Or.inr (Or.inr (Or.inr (Or.inl h))))))
    · exact Or.inr (Or.inr (Or.inr (Or.inr (Or.inr (Or.inr (Or.inr h))))))

theorem testHud_no_close (env : HudEnv) :
    ((testHud env).1).countP isClose = 0 := by
  rw [List.countP_eq_zero]
  intro e he
  rcases testHud_events env e he with ⟨b, rfl⟩ | ⟨s, b, rfl⟩ | ⟨s, b, rfl⟩ | rfl
    | ⟨m, rfl⟩ | ⟨v, rfl⟩ | rfl | rfl <;> simp [isClose]

theorem testHud_no_jsClick (env : HudEnv) :
    ((testHud env).1).countP isJsClick = 0 := by
  rw [List.countP_eq_zero]
  intro e he
  rcases testHud_events env e he with ⟨b, rfl⟩ | ⟨s, b, rfl⟩ | ⟨s, b, rfl⟩ | rfl
    | ⟨m, rfl⟩ | ⟨v, rfl⟩ | rfl | rfl <;> simp [isJsClick]

/-- Liftoff reads that are false on the whole window. -/
def allFalseReads : Nat → Option Bool := fun _ => some false

/-- A verify_exhaust environment whose navigation fails. -/
def exhaustNavFail : ExhaustEnv :=
  { gotoOk := false, clickStartOk := true, clickGotItOk := true,
    launchOk := true, throttleOk := true, liftoffReads := allFalseReads,
    warpOk := true }

/-- A verify_exhaust environment where navigation succeeds but both click
steps fail; everything else succeeds and the liftoff flag stays false. -/
def exhaustGood : ExhaustEnv :=
  { gotoOk := true, clickStartOk := false, clickGotItOk := false,
    launchOk := true, throttleOk := true, liftoffReads := allFalseReads,
    warpOk := true }

/-- A verify_hud environment: start button never appears, wind text reads
"0 m/s". -/
def hudEnvZero : HudEnv :=
  { gotoOk := true, startFound := false, clickStartOk := false,
    hudSelOk := true, windText := some "0 m/s" }

/-! ## C1: session closed exactly once on every exit path -/

/-- C1 counterexample: on the verify_exhaust run whose navigation fails,
the script returns early and performs zero browser closes, refuting the
claim that every exit path performs exactly one close. -/
theorem session_close_counterexample :
    closes (verifyExhaust exhaustNavFail) = 0
    ∧ ¬ closes (verifyExhaust exhaustNavFail) = 1 := by
  constructor <;> decide

/-- C1 corrected: verify_hud closes the browser exactly once on every exit
path (its finally block); verify_exhaust closes it exactly once only on
runs that reach the end (navigation and the scripted evaluations succeed
and no liftoff read raises) and performs no close at all when navigation
fails. -/
theorem session_close_per_path :
    (∀ env : HudEnv, closes (hudMain env) = 1)
    ∧ (∀ env : ExhaustEnv, env.gotoOk = false → closes (verifyExhaust env) = 0)
    ∧ (∀ env : ExhaustEnv, env.gotoOk = true → env.launchOk = true →
        env.throttleOk = true → env.warpOk = true →
        (∀ i, i < 20 → env.liftoffReads i ≠ none) →
        closes (verifyExhaust env) = 1) := by
  refine ⟨?_, ?_, ?_⟩
  · intro env
    unfold closes hudMain
    simp [List.countP_append, testHud_no_close env, List.countP_cons, isClose]
  · intro env h
    simp [closes, verifyExhaust, andThen, gotoCaught, h, isClose, List.countP_cons]
  · intro env h1 h2 h3 h4 h5
    have h5' := pollTr_continue env.liftoffReads h5
    obtain ⟨ht, _⟩ := verifyExhaust_success_trace env h1 h2 h3 h4 h5'
    unfold closes
    rw [ht]
    simp [List.countP_append, List.countP_cons, isClose,
      pollTrace_isClose env.liftoffReads]

/-- Witness for the corrected C1: the hud run closes once, the
navigation-failure exhaust run closes zero times, the successful exhaust
run closes once. -/
theorem session_close_per_path_witness :
    closes (hudMain hudEnvZero) = 1
    ∧ closes (verifyExhaust exhaustNavFail) = 0
    ∧ closes (verifyExhaust exhaustGood) = 1 :=
  ⟨session_close_per_path.1 hudEnvZero,
   session_close_per_path.2.1 exhaustNavFail rfl,
   session_close_per_path.2.2 exhaustGood rfl rfl rfl rfl
     (by intro i _; simp [exhaustGood, allFalseReads])⟩

/-! ## C2: evidence capture at least once on every run -/

/-- A verify_script_editor environment whose navigation fails. -/
def editorNavFail : ScriptEditorEnv :=
  { gotoOk := false, startVisOk := true, clickStartOk := true,
    splashHideOk := true, modalVisOk := true, options := [] }

/-- C2 counterexample: the verify_exhaust run whose navigation fails (an
abort on the very first step) terminates without a single screenshot,
refuting the claim that Evidence Capture is invoked at least once on every
run. -/
theorem evidence_capture_counterexample :
    shots (verifyExhaust exhaustNavFail) = 0
    ∧ (verifyExhaust exhaustNavFail).2 = false := by
  constructor <;> decide

/-- C2 corrected: when navigation fails, verify_exhaust takes no
screenshot at all, and verify_script_editor likewise takes none (though it
still closes the browser); a screenshot is taken exactly once on
verify_exhaust runs that reach the end. -/
theorem evidence_capture_per_path :
    (∀ env : ExhaustEnv, env.gotoOk = false → shots (verifyExhaust env) = 0)
    ∧ (∀ env : ScriptEditorEnv, env.gotoOk = false →
        shots (scriptEditorRun env) = 0 ∧ closes (scriptEditorRun env) = 1)
    ∧ (∀ env : ExhaustEnv, env.gotoOk = true → env.launchOk = true →
        env.throttleOk = true → env.warpOk = true →
        (∀ i, i < 20 → env.liftoffReads i ≠ none) →
        shots (verifyExhaust env) = 1) := by
  refine ⟨?_, ?_, ?_⟩
  · intro env h
    simp [shots, verifyExhaust, andThen, gotoCaught, h, isShot, List.countP_cons]
  · intro env h
    constructor <;>
      simp [shots, closes, scriptEditorRun, editorBody, gotoRaw, andThen, h,
        isShot, isClose, List.countP_cons, List.countP_append]
  · intro env h1 h2 h3 h4 h5
    have h5' := pollTr_continue env.liftoffReads h5
    obtain ⟨ht, _⟩ := verifyExhaust_success_trace env h1 h2 h3 h4 h5'
    unfold shots
    rw [ht]
    simp [List.countP_append, List.countP_cons, isShot,
      pollTrace_isShot env.liftoffReads]

/-- Witness for the corrected C2 at concrete environments. -/
theorem evidence_capture_per_path_witness :
    shots (verifyExhaust exhaustNavFail) = 0
    ∧ (shots (scriptEditorRun editorNavFail) = 0
       ∧ closes (scriptEditorRun editorNavFail) = 1)
    ∧ shots (verifyExhaust exhaustGood) = 1 :=
  ⟨evidence_capture_per_path.1 exhaustNavFail rfl,
   evidence_capture_per_path.2.1 editorNavFail rfl,
   evidence_capture_per_path.2.2 exhaustGood rfl rfl rfl rfl
     (by intro i _; simp [exhaustGood, allFalseReads])⟩

/-! ## C10: the scripted evaluations always run once navigation succeeds -/

/-- C10: once navigation succeeds, the launch evaluation is always invoked
whatever the outcome of the two click steps, and the throttle evaluation
is invoked whenever the launch one did not raise. -/
theorem scripted_evals_after_nav (env : ExhaustEnv) (h : env.gotoOk = true) :
    Ev.evalJs "window.game.launch()" env.launchOk ∈ (verifyExhaust env).1
    ∧ (env.launchOk = true →
        Ev.evalJs "window.game.setThrottle(1.0)" env.throttleOk ∈ (verifyExhaust env).1) := by
  constructor
  · unfold verifyExhaust
    apply mem_andThen_right _ _ _ (by simp [gotoCaught, h])
    apply mem_andThen_right _ _ _ (by simp [emit])
    apply mem_andThen_right _ _ _ (by simp [clickCaught])
    apply mem_andThen_right _ _ _ (by simp [emit])
    apply mem_andThen_right _ _ _ (by simp [clickCaught])
    apply mem_andThen_left
    simp [evalCmd]
  · intro h2
    unfold verifyExhaust
    apply mem_andThen_right _ _ _ (by simp [gotoCaught, h])
    apply mem_andThen_right _ _ _ (by simp [emit])
    apply mem_andThen_right _ _ _ (by simp [clickCaught])
    apply mem_andThen_right _ _ _ (by simp [emit])
    apply mem_andThen_right _ _ _ (by simp [clickCaught])
    apply mem_andThen_right _ _ _ (by simp [evalCmd, h2])
    apply mem_andThen_left
    simp [evalCmd]

/-- Witness for C10: with navigation succeeding and both clicks failing,
both scripted evaluations appear in the trace. -/
theorem scripted_evals_after_nav_witness :
    Ev.evalJs "window.game.launch()" true ∈ (verifyExhaust exhaustGood).1
    ∧ Ev.evalJs "window.game.setThrottle(1.0)" true ∈ (verifyExhaust exhaustGood).1 :=
  ⟨(scripted_evals_after_nav exhaustGood rfl).1,
   (scripted_evals_after_nav exhaustGood rfl).2 rfl⟩

/-! ## C6: criticality of steps -/

theorem hudStartStep_continue (env : HudEnv) : (hudStartStep env).2 = true := by
  rcases env with ⟨g, sf, cs, hs, wt⟩
  cases sf <;> cases cs <;> rfl

theorem maneuverStartStep_continue (env : ManeuverEnv) :
    (maneuverStartStep env).2 = true := by
  rcases env with ⟨g, sv, cs, mv, cc, bx⟩
  cases sv <;> cases cs <;> rfl

theorem maneuverModalStep_continue (env : ManeuverEnv) :
    (maneuverModalStep env).2 = true := by
  unfold maneuverModalStep
  split <;> rfl

/-- A verify_hud environment where the start button is found but clicking
it raises; later reads succeed and the wind text is empty. -/
def hudEnvClickFail : HudEnv :=
  { gotoOk := true, startFound := true, clickStartOk := false,
    hudSelOk := true, windText := some "" }

/-- A verify_maneuver_planner environment where the start click fails but
everything afterwards succeeds with a 400-wide content box. -/
def maneuverEnvClickFail : ManeuverEnv :=
  { gotoOk := true, startVisOk := true, clickStartOk := false,
    modalVisOk := true, contentCount := 1, box := some 400 }

/-- C6: failures of the non-critical click steps never prevent the
subsequent steps (the dismiss click, the scripted launch evaluation, the
HUD selector wait, the key press reaching the modal), while the critical
navigation failure of verify_exhaust prevents every subsequent action:
its whole trace is just the failed navigation and the log line. -/
theorem step_criticality :
    (∀ env : ExhaustEnv, env.gotoOk = true → env.clickStartOk = false →
        Ev.click "#tooltip-dismiss" env.clickGotItOk ∈ (verifyExhaust env).1
        ∧ Ev.evalJs "window.game.launch()" env.launchOk ∈ (verifyExhaust env).1)
    ∧ (∀ env : ExhaustEnv, env.gotoOk = false →
        (verifyExhaust env).1 = [.goto false, .print "Navigation failed"])
    ∧ (∀ env : HudEnv, env.gotoOk = true → env.startFound = true →
        env.clickStartOk = false →
        Ev.waitSel "#hud-wind-speed" env.hudSelOk ∈ (testHud env).1)
    ∧ (∀ env : ManeuverEnv, env.gotoOk = true → env.clickStartOk = false →
        Ev.pressKey "o" ∈ (verifyManeuverPlanner env).1) := by
  refine ⟨?_, ?_, ?_, ?_⟩
  · intro env h1 _
    constructor
    · unfold verifyExhaust
      apply mem_andThen_right _ _ _ (by simp [gotoCaught, h1])
      apply mem_andThen_right _ _ _ (by simp [emit])
      apply mem_andThen_right _ _ _ (by simp [clickCaught])
      apply mem_andThen_right _ _ _ (by simp [emit])
      apply mem_andThen_left
      simp [clickCaught]
    · unfold verifyExhaust
      apply mem_andThen_right _ _ _ (by simp [gotoCaught, h1])
      apply mem_andThen_right _ _ _ (by simp [emit])
      apply mem_andThen_right _ _ _ (by simp [clickCaught])
      apply mem_andThen_right _ _ _ (by simp [emit])
      apply mem_andThen_right _ _ _ (by simp [clickCaught])
      apply mem_andThen_left
      simp [evalCmd]
  · intro env h
    simp [verifyExhaust, andThen, gotoCaught, h]
  · intro env h1 _ _
    unfold testHud
    apply mem_andThen_right _ _ _ (by simp [gotoRaw, h1])
    apply mem_andThen_right _ _ _ (hudStartStep_continue env)
    apply mem_andThen_left
    simp [waitSelRaw]
  · intro env h1 _
    unfold verifyManeuverPlanner
    apply mem_andThen_right _ _ _ (by simp [gotoRaw, h1])
    apply mem_andThen_right _ _ _ (maneuverStartStep_continue env)
    apply mem_andThen_left
    simp [emit]

/-- Witness for C6 at concrete environments with failing non-critical
clicks and a failing critical navigation. -/
theorem step_criticality_witness :
    (Ev.click "#tooltip-dismiss" false ∈ (verifyExhaust exhaustGood).1
      ∧ Ev.evalJs "window.game.launch()" true ∈ (verifyExhaust exhaustGood).1)
    ∧ (verifyExhaust exhaustNavFail).1 = [.goto false, .print "Navigation failed"]
    ∧ Ev.waitSel "#hud-wind-speed" true ∈ (testHud hudEnvClickFail).1
    ∧ Ev.pressKey "o" ∈ (verifyManeuverPlanner maneuverEnvClickFail).1 :=
  ⟨step_criticality.1 exhaustGood rfl rfl,
   step_criticality.2.1 exhaustNavFail rfl,
   step_criticality.2.2.1 hudEnvClickFail rfl rfl rfl,
   step_criticality.2.2.2 maneuverEnvClickFail rfl rfl⟩

/-! ## C7: fallback invoked iff primary failed -/

theorem mcAfterStart_no_start_jsClick (env : MissionCtlEnv) (b : Bool) :
    Ev.evalJsClick "start-btn" b ∉ (mcAfterStart env).1 := by
  intro h
  unfold mcAfterStart at h
  rcases mem_andThen _ _ _ h with h | h
  · simp [waitHiddenRaw] at h
  rcases mem_andThen _ _ _ h with h | h
  · simp [emit] at h
  rcases mem_andThen _ _ _ h with h | h
  · unfold onboardingStep at h
    split at h
    · simp at h
    · simp at h
    · rcases mem_andThen _ _ _ h with h2 | h2
      · simp [emit] at h2
      rcases mem_andThen _ _ _ h2 with h3 | h3
      · unfold clickWithJsFallback at h3
        split at h3 <;> simp at h3
      rcases mem_andThen _ _ _ h3 with h4 | h4
      · simp [emit] at h4
      · simp [evalCmd] at h4
  rcases mem_andThen _ _ _ h with h | h
  · simp [waitSelRaw] at h
  rcases mem_andThen _ _ _ h with h | h
  · unfold clickWithJsFallback at h
    split at h <;> simp at h
  rcases mem_andThen _ _ _ h with h | h
  · simp [emit] at h
  · simp [emit] at h

/-- A verify_mission_control environment where only the primary start
click fails. -/
def mcEnvStartFail : MissionCtlEnv :=
  { gotoOk := true, splashVisOk := true, clickStartOk := false,
    evalStartOk := true, splashHideOk := true, onboarding := some false,
    clickDismissOk := true, evalDismissOk := true, evalRemoveOk := true,
    mcVisOk := true, clickMcOk := true, evalMcOk := true }

/-- C7: in verify_mission_control, the JS-click fallback on the start
button is invoked if and only if the primary click failed; in verify_hud,
which declares no fallback, no JS-click invocation ever occurs, and a
failed primary start click is only logged while the run continues. -/
theorem fallback_iff_primary_fails :
    (∀ env : MissionCtlEnv, env.gotoOk = true → env.splashVisOk = true →
        (Ev.evalJsClick "start-btn" env.evalStartOk ∈ (verifyMissionControl env).1
          ↔ env.clickStartOk = false))
    ∧ (∀ env : HudEnv, ((hudMain env).1).countP isJsClick = 0)
    ∧ (∀ env : HudEnv, env.gotoOk = true → env.startFound = true →
        env.clickStartOk = false →
        Ev.print "Start button not found or error" ∈ (hudMain env).1
        ∧ (hudStartStep env).2 = true) := by
  refine ⟨?_, ?_, ?_⟩
  · intro env h1 h2
    constructor
    · intro hmem
      by_contra hcs
      have hcs' : env.clickStartOk = true := by
        revert hcs; cases env.clickStartOk <;> simp
      unfold verifyMissionControl at hmem
      rcases mem_andThen _ _ _ hmem with h | h
      · simp [gotoRaw] at h
      rcases mem_andThen _ _ _ h with h | h
      · simp [waitSelRaw] at h
      rcases mem_andThen _ _ _ h with h | h
      · simp [emit] at h
      rcases mem_andThen _ _ _ h with h | h
      · simp [clickWithJsFallback, hcs'] at h
      · exact mcAfterStart_no_start_jsClick env env.evalStartOk h
    · intro hcs
      unfold verifyMissionControl
      apply mem_andThen_right _ _ _ (by simp [gotoRaw, h1])
      apply mem_andThen_right _ _ _ (by simp [waitSelRaw, h2])
      apply mem_andThen_right _ _ _ (by simp [emit])
      apply mem_andThen_left
      simp [clickWithJsFallback, hcs]
  · intro env
    unfold hudMain
    simp [List.countP_append, testHud_no_jsClick env, List.countP_cons, isJsClick]
  · intro env h1 h2 h3
    refine ⟨?_, hudStartStep_continue env⟩
    unfold hudMain
    refine List.mem_append.mpr (Or.inl (List.mem_append.mpr (Or.inl ?_)))
    unfold testHud
    apply mem_andThen_right _ _ _ (by simp [gotoRaw, h1])
    apply mem_andThen_left
    simp [hudStartStep, h2, h3]

/-- Witness for C7: with a failing primary start click the fallback event
is present in the mission-control trace, and the hud run performs no
JS-click invocation at all while logging its failed click. -/
theorem fallback_iff_primary_fails_witness :
    Ev.evalJsClick "start-btn" true ∈ (verifyMissionControl mcEnvStartFail).1
    ∧ ((hudMain hudEnvClickFail).1).countP isJsClick = 0
    ∧ Ev.print "Start button not found or error" ∈ (hudMain hudEnvClickFail).1 :=
  ⟨(fallback_iff_primary_fails.1 mcEnvStartFail rfl rfl).mpr rfl,
   fallback_iff_primary_fails.2.1 hudEnvClickFail,
   (fallback_iff_primary_fails.2.2 hudEnvClickFail rfl rfl rfl).1⟩

/-! ## C8: the maneuver-planner pass condition -/

/-- A verify_maneuver_planner environment on which the scenario passes. -/
def maneuverPassEnv : ManeuverEnv :=
  { gotoOk := true, startVisOk := true, clickStartOk := true,
    modalVisOk := true, contentCount := 1, box := some 400 }

/-- C8: the maneuver-planner scenario prints its passing verdict only if
the modal became visible, the content element was found and its
bounding-box width is at most 500; and on every navigated run the trace
is the start block, then the key press of o, then the modal check block,
then the final screenshot and close, so the key press precedes the
assertions. -/
theorem maneuver_pass_requires_assertions (env : ManeuverEnv) :
    (maneuverPassed env →
        env.modalVisOk = true ∧ 0 < env.contentCount
        ∧ ∃ w, env.box = some w ∧ w ≤ 500)
    ∧ (env.gotoOk = true →
        (verifyManeuverPlanner env).1 =
          [.goto true] ++ (maneuverStartStep env).1
          ++ [.waitTimeout 2000, .pressKey "o"]
          ++ (maneuverModalStep env).1
          ++ [.screenshot "verification/maneuver_planner.png", .close]) := by
  constructor
  · intro hp
    unfold maneuverPassed verifyManeuverPlanner at hp
    rcases mem_andThen _ _ _ hp with h | h
    · simp [gotoRaw] at h
    rcases mem_andThen _ _ _ h with h | h
    · unfold maneuverStartStep at h
      split at h
      · split at h <;> simp at h
      · simp at h
    rcases mem_andThen _ _ _ h with h | h
    · simp [emit] at h
    rcases mem_andThen _ _ _ h with h | h
    · unfold maneuverModalStep at h
      split at h
      case isTrue hmv =>
        simp only [List.mem_cons] at h
        rcases h with h | h | h
        · simp at h
        · simp at h
        · split at h
          case isTrue hcc =>
            simp only [List.mem_cons] at h
            rcases h with h | h
            · simp at h
            · split at h
              · simp at h
              case h_2 w heq =>
                simp only [List.mem_cons] at h
                rcases h with h | h
                · simp at h
                · split at h
                  case isTrue hle => exact ⟨hmv, hcc, w, heq, hle⟩
                  case isFalse => simp at h
          case isFalse => simp at h
      case isFalse => simp at h
    · simp [emit] at h
  · intro h1
    simp [verifyManeuverPlanner, andThen, gotoRaw, emit, h1,
      maneuverStartStep_continue env, maneuverModalStep_continue env]

/-- Witness for C8: on the passing environment the modal-visible flag is
forced true, and the navigated trace decomposes with the key press before
the modal block. -/
theorem maneuver_pass_requires_assertions_witness :
    maneuverPassEnv.modalVisOk = true
    ∧ (verifyManeuverPlanner maneuverPassEnv).1 =
        [.goto true] ++ (maneuverStartStep maneuverPassEnv).1
        ++ [.waitTimeout 2000, .pressKey "o"]
        ++ (maneuverModalStep maneuverPassEnv).1
        ++ [.screenshot "verification/maneuver_planner.png", .close] :=
  ⟨((maneuver_pass_requires_assertions maneuverPassEnv).1 (by decide)).1,
   (maneuver_pass_requires_assertions maneuverPassEnv).2 rfl⟩

/-! ## C9: the wind-speed check only logs -/

/-- C9: whatever text content the wind-speed element shows (empty, the
zero reading or anything else), the hud run proceeds to the computed-style
read and the screenshot and does not fail, and the check itself performs
nothing but the read and possibly one diagnostic log line. -/
theorem wind_check_only_logs (env : HudEnv)
    (h1 : env.gotoOk = true) (h2 : env.hudSelOk = true) :
    Ev.readStyle "#hud-wind-speed" "color" ∈ (testHud env).1
    ∧ Ev.screenshot "verification_hud_ingame.png" ∈ (testHud env).1
    ∧ (testHud env).2 = true
    ∧ (∀ e, e ∈ (windCheck env.windText).1 →
        e = .readText "#hud-wind-speed" env.windText
        ∨ e = .print "Wind speed content is 0 or empty, simulation might be paused or wind is 0.") := by
  have hw : (windCheck env.windText).2 = true := rfl
  refine ⟨?_, ?_, ?_, ?_⟩
  · unfold testHud
    apply mem_andThen_right _ _ _ (by simp [gotoRaw, h1])
    apply mem_andThen_right _ _ _ (hudStartStep_continue env)
    apply mem_andThen_right _ _ _ (by simp [waitSelRaw, h2])
    apply mem_andThen_right _ _ _ hw
    simp [emit]
  · unfold testHud
    apply mem_andThen_right _ _ _ (by simp [gotoRaw, h1])
    apply mem_andThen_right _ _ _ (hudStartStep_continue env)
    apply mem_andThen_right _ _ _ (by simp [waitSelRaw, h2])
    apply mem_andThen_right _ _ _ hw
    simp [emit]
  · simp [testHud, andThen, gotoRaw, h1, waitSelRaw, h2, emit,
      hudStartStep_continue env, hw]
  · intro e he
    unfold windCheck at he
    simp only [List.mem_cons] at he
    rcases he with he | he
    · exact Or.inl he
    · split at he <;> simp at he
      exact Or.inr he

/-- Witness for C9 at the zero-reading environment. -/
theorem wind_check_only_logs_witness :
    Ev.readStyle "#hud-wind-speed" "color" ∈ (testHud hudEnvZero).1
    ∧ Ev.screenshot "verification_hud_ingame.png" ∈ (testHud hudEnvZero).1
    ∧ (testHud hudEnvZero).2 = true :=
  ⟨(wind_check_only_logs hudEnvZero rfl rfl).1,
   (wind_check_only_logs hudEnvZero rfl rfl).2.1,
   (wind_check_only_logs hudEnvZero rfl rfl).2.2.1⟩

end RocketVerify
